import Mathlib

/-!
Shallow embedding of the OBSRecorder recording-session orchestrator
(src/src/obsRecording.py, plus the SetName branch of
src/src/websocketInterface.py).

Modelling conventions:

- Filesystem paths are lists of components; a component is either a plain
  name or a decimal-numeral component (the f-string rendering of a natural
  number used by get_incremental_folder).  Distinct naturals render to
  distinct numeral strings, which the separate num constructor captures.
- The set of existing filesystem entries is a finite set of paths;
  os.path.exists is membership and os.makedirs inserts a path together
  with all of its nonempty ancestors.
- Python in-place mutation is explicit state passing; a raised Python
  exception is Except.error at the FileManagementController layer and the
  exn constructor of PyResult at the controller layer; printed OBS ERROR
  diagnostics of the controller methods are reported through the Outcome
  type.
- The unbounded while loop of pop_all_queued_operations receives explicit
  fuel; the hang result marks the fuel running out, which corresponds to
  the Python loop not terminating.
- The wall clock (datetime.now), the popup collaborator and the OBS
  WebSocket backend are injected parameters (today, popUpYes, Backend).
-/

namespace OBSRecorder

/-- One path component: a plain directory or file name, or the decimal
numeral of a natural number (the f-string in get_incremental_folder). -/
inductive Comp
  | name (s : String)
  | num (n : ℕ)
deriving DecidableEq

/-- A filesystem path, as the list of its components from the root. -/
abbrev Path := List Comp

/-- All nonempty prefixes of a path: the path itself and its ancestors. -/
def pathPrefixes (p : Path) : List Path :=
  (List.range p.length).map (fun k => p.take (k + 1))

/-- Model of os.makedirs(p, exist_ok=True): the path and all its nonempty
ancestors come to exist. -/
def makedirs (fs : Finset Path) (p : Path) : Finset Path :=
  fs ∪ (pathPrefixes p).toFinset

theorem mem_makedirs_iff {fs : Finset Path} {p q : Path} :
    q ∈ makedirs fs p ↔ q ∈ fs ∨ ∃ k, k < p.length ∧ q = p.take (k + 1) := by
  simp [makedirs, pathPrefixes, eq_comm]

theorem subset_makedirs (fs : Finset Path) (p : Path) : fs ⊆ makedirs fs p :=
  Finset.subset_union_left

theorem mem_makedirs_self {p : Path} (fs : Finset Path) (hp : p ≠ []) :
    p ∈ makedirs fs p := by
  refine mem_makedirs_iff.mpr (Or.inr ⟨p.length - 1, ?_, ?_⟩)
  · have : 0 < p.length := List.length_pos.mpr hp
    omega
  · have : 0 < p.length := List.length_pos.mpr hp
    have h1 : p.length - 1 + 1 = p.length := by omega
    rw [h1, List.take_length]

/-- A filesystem is prefix-closed when every entry with a parent has that
parent present as well; real directory trees satisfy this. -/
def PrefixClosed (fs : Finset Path) : Prop :=
  ∀ q c, q ++ [c] ∈ fs → q = [] ∨ q ∈ fs

theorem prefixClosed_makedirs {fs : Finset Path} (h : PrefixClosed fs)
    (p : Path) : PrefixClosed (makedirs fs p) := by
  intro q c hq
  rcases mem_makedirs_iff.mp hq with hfs | ⟨k, hk, heq⟩
  · rcases h q c hfs with h0 | hmem
    · exact Or.inl h0
    · exact Or.inr (subset_makedirs fs p hmem)
  · have htake : p.take (k + 1) = p.take k ++ [p[k]] := by
      rw [List.take_succ, List.getElem?_eq_getElem hk]
      rfl
    rw [htake] at heq
    have hinj := List.append_inj' heq rfl
    have hq' : q = p.take k := hinj.1
    match k, hk with
    | 0, _ =>
      exact Or.inl (by simpa using hq')
    | k' + 1, hk =>
      refine Or.inr (mem_makedirs_iff.mpr (Or.inr ⟨k', by omega, ?_⟩))
      exact hq'

theorem child_not_mem {fs : Finset Path} (h : PrefixClosed fs) {p : Path}
    (hp : p ≠ []) (hnp : p ∉ fs) (c : Comp) : p ++ [c] ∉ fs := by
  intro hm
  rcases h p c hm with h0 | hmem
  · exact hp h0
  · exact hnp hmem

theorem child_not_mem_makedirs_self {fs : Finset Path} {p : Path} {c : Comp}
    (hch : p ++ [c] ∉ fs) : p ++ [c] ∉ makedirs fs p := by
  intro hm
  rcases mem_makedirs_iff.mp hm with hfs | ⟨k, hk, heq⟩
  · exact hch hfs
  · have hlen := congrArg List.length heq
    simp [List.length_take] at hlen
    omega

/-- Loop body of FileManagementController.get_incremental_folder: starting
from index i, advance while the candidate subfolder exists.  The Python
while loop carries no fuel; fuel is made explicit and chosen large enough
at the wrapper. -/
def get_incremental_folder_aux (fs : Finset Path) (base : Path) : ℕ → ℕ → ℕ
  | i, 0 => i
  | i, fuel + 1 =>
    if base ++ [Comp.num i] ∈ fs then get_incremental_folder_aux fs base (i + 1) fuel
    else i

/-- Model of FileManagementController.get_incremental_folder: the first
index i, counting from 1, whose subfolder path does not yet exist.  Fuel
fs.card + 1 always suffices (exists_free_index below). -/
def get_incremental_folder (fs : Finset Path) (base : Path) : ℕ :=
  get_incremental_folder_aux fs base 1 (fs.card + 1)

theorem le_get_incremental_folder_aux (fs : Finset Path) (base : Path) :
    ∀ fuel i, i ≤ get_incremental_folder_aux fs base i fuel := by
  intro fuel
  induction fuel with
  | zero => intro i; simp [get_incremental_folder_aux]
  | succ n ih =>
    intro i
    by_cases hmem : base ++ [Comp.num i] ∈ fs
    · have := ih (i + 1)
      simp only [get_incremental_folder_aux, if_pos hmem]
      omega
    · simp [get_incremental_folder_aux, if_neg hmem]

theorem get_incremental_folder_aux_mem (fs : Finset Path) (base : Path) :
    ∀ fuel i j, i ≤ j → j < get_incremental_folder_aux fs base i fuel →
      base ++ [Comp.num j] ∈ fs := by
  intro fuel
  induction fuel with
  | zero =>
    intro i j hij hlt
    simp [get_incremental_folder_aux] at hlt
    omega
  | succ n ih =>
    intro i j hij hlt
    by_cases hmem : base ++ [Comp.num i] ∈ fs
    · simp only [get_incremental_folder_aux, if_pos hmem] at hlt
      rcases Nat.eq_or_lt_of_le hij with heq | hlt'
      · exact heq ▸ hmem
      · exact ih (i + 1) j hlt' hlt
    · simp only [get_incremental_folder_aux, if_neg hmem] at hlt
      omega

theorem get_incremental_folder_aux_free (fs : Finset Path) (base : Path) :
    ∀ fuel i, (∃ j, i ≤ j ∧ j < i + fuel ∧ base ++ [Comp.num j] ∉ fs) →
      base ++ [Comp.num (get_incremental_folder_aux fs base i fuel)] ∉ fs := by
  intro fuel
  induction fuel with
  | zero =>
    intro i ⟨j, h1, h2, _⟩
    omega
  | succ n ih =>
    intro i ⟨j, h1, h2, h3⟩
    by_cases hmem : base ++ [Comp.num i] ∈ fs
    · simp only [get_incremental_folder_aux, if_pos hmem]
      refine ih (i + 1) ⟨j, ?_, by omega, h3⟩
      rcases Nat.eq_or_lt_of_le h1 with heq | hlt
      · exact absurd (heq ▸ hmem) h3
      · omega
    · simpa [get_incremental_folder_aux, if_neg hmem] using hmem

theorem exists_free_index (fs : Finset Path) (base : Path) :
    ∃ j, 1 ≤ j ∧ j < 1 + (fs.card + 1) ∧ base ++ [Comp.num j] ∉ fs := by
  by_contra hcon
  push_neg at hcon
  have hsub : (Finset.Icc 1 (fs.card + 1)).image
      (fun j => base ++ [Comp.num j]) ⊆ fs := by
    intro q hq
    rcases Finset.mem_image.mp hq with ⟨j, hj, rfl⟩
    rcases Finset.mem_Icc.mp hj with ⟨h1, h2⟩
    exact hcon j h1 (by omega)
  have hinj : Function.Injective (fun j : ℕ => base ++ [Comp.num j]) := by
    intro a b hab
    have h1 := congrArg (List.drop base.length) hab
    rw [List.drop_left, List.drop_left] at h1
    simpa using h1
  have hcard := Finset.card_le_card hsub
  rw [Finset.card_image_of_injective _ hinj, Nat.card_Icc] at hcard
  omega

theorem get_incremental_folder_spec (fs : Finset Path) (base : Path) :
    1 ≤ get_incremental_folder fs base ∧
    base ++ [Comp.num (get_incremental_folder fs base)] ∉ fs ∧
    ∀ j, 1 ≤ j → j < get_incremental_folder fs base →
      base ++ [Comp.num j] ∈ fs := by
  refine ⟨le_get_incremental_folder_aux fs base _ 1, ?_, ?_⟩
  · exact get_incremental_folder_aux_free fs base _ 1 (exists_free_index fs base)
  · intro j h1 h2
    exact get_incremental_folder_aux_mem fs base _ 1 j h1 h2

theorem get_incremental_folder_lt {fs fs' : Finset Path} {base : Path}
    (hsub : fs ⊆ fs')
    (hmem : base ++ [Comp.num (get_incremental_folder fs base)] ∈ fs') :
    get_incremental_folder fs base < get_incremental_folder fs' base := by
  obtain ⟨h1, h2, h3⟩ := get_incremental_folder_spec fs base
  obtain ⟨h1', h2', h3'⟩ := get_incremental_folder_spec fs' base
  by_contra hcon
  push_neg at hcon
  rcases Nat.eq_or_lt_of_le hcon with heq | hlt
  · exact h2' (heq ▸ hmem)
  · exact h2' (hsub (h3 _ h1' hlt))

/-- Mutable fields of FileManagementController that the modelled methods
read or write.  The execLog field is a history variable recording every
completed execution of set_save_location as (root, vid_name,
session_folder); the source has no such field, it only makes the order
and number of executions statable.  The health bookkeeping fields
health_check and previous_values are written but never branched on by the
modelled methods and are omitted. -/
structure FMState where
  buffer_folder : Path
  last_vid_name : Option String
  current_using_folder : Option Path
  last_used_root_folder : Option Path
  last_used_folder : Option Path
  sessions_started : Bool
  execLog : List (Path × String × Path)
deriving DecidableEq

namespace FM

/-- Model of FileManagementController.set_save_location.  popUpYes is the
answer the popup collaborator would give, today is datetime.now
formatted as YYYY-MM-DD.  A None root_folder falls back to
last_used_root_folder; passing None with no stored root makes
os.path.exists raise a TypeError.  A missing root with a declined popup
raises ValueError.  Errors are Except.error (a raised exception). -/
def set_save_location (popUpYes : Bool) (today : String) (fs : Finset Path)
    (st : FMState) (root_folder : Option Path) (vid_name : String) :
    Except String (Finset Path × FMState) :=
  let root_folder := match root_folder with
    | none => st.last_used_root_folder
    | some r => some r
  match root_folder with
  | none => Except.error "TypeError: expected str, bytes or os.PathLike object, not NoneType"
  | some root =>
    let proceed : Finset Path → Except String (Finset Path × FMState) := fun fs =>
      let st := { st with last_used_root_folder := some root,
                          last_vid_name := some vid_name }
      let date_folder := root ++ [Comp.name today]
      let fs := makedirs fs date_folder
      let session_folder_base := date_folder ++ [Comp.name vid_name]
      let session_folder :=
        session_folder_base ++ [Comp.num (get_incremental_folder fs session_folder_base)]
      let fs := makedirs fs session_folder
      Except.ok (fs, { st with
        last_used_folder := st.current_using_folder,
        current_using_folder := some session_folder,
        execLog := st.execLog ++ [(root, vid_name, session_folder)] })
    if root ∈ fs then proceed fs
    else if popUpYes then proceed (makedirs fs root)
    else Except.error "[OBS ERROR] Root path does not exist."

/-- The session folder that a successful set_save_location resolves, given
the filesystem after the date folder is ensured. -/
def session_folder_of (fs : Finset Path) (root : Path) (today vid_name : String) : Path :=
  root ++ [Comp.name today] ++ [Comp.name vid_name] ++
    [Comp.num (get_incremental_folder (makedirs fs (root ++ [Comp.name today]))
      (root ++ [Comp.name today] ++ [Comp.name vid_name]))]

theorem set_save_location_of_mem (popUpYes : Bool) (today : String)
    (fs : Finset Path) (st : FMState) (root : Path) (vid_name : String)
    (hr : root ∈ fs) :
    set_save_location popUpYes today fs st (some root) vid_name =
      Except.ok
        (makedirs (makedirs fs (root ++ [Comp.name today]))
          (session_folder_of fs root today vid_name),
         { st with
           last_used_root_folder := some root,
           last_vid_name := some vid_name,
           last_used_folder := st.current_using_folder,
           current_using_folder := some (session_folder_of fs root today vid_name),
           execLog := st.execLog ++ [(root, vid_name, session_folder_of fs root today vid_name)] }) := by
  simp [set_save_location, session_folder_of, hr, List.append_assoc]

/-- State effect of FileManagementController.move_recorded_files visible
at the controller layer: when a current folder is set the method marks
sessions_started; the per-file moves themselves act on the buffer
directory contents, modelled separately by Archiver.move_recorded_files. -/
def move_recorded_files_state (st : FMState) : FMState :=
  match st.current_using_folder with
  | none => st
  | some _ => { st with sessions_started := true }

/-- State effect of
FileManagementController.prepend_vid_name_last_recordings visible at the
controller layer: none of the modelled fields change; the renames act on
folder contents, modelled separately by
Archiver.prepend_vid_name_last_recordings. -/
def prepend_vid_name_state (st : FMState) : FMState := st

theorem move_recorded_files_state_execLog (st : FMState) :
    (move_recorded_files_state st).execLog = st.execLog := by
  cases h : st.current_using_folder <;> simp [move_recorded_files_state, h]

theorem move_recorded_files_state_current (st : FMState) :
    (move_recorded_files_state st).current_using_folder = st.current_using_folder := by
  cases h : st.current_using_folder <;> simp [move_recorded_files_state, h]

theorem move_recorded_files_state_last_used_root (st : FMState) :
    (move_recorded_files_state st).last_used_root_folder = st.last_used_root_folder := by
  cases h : st.current_using_folder <;> simp [move_recorded_files_state, h]

theorem move_recorded_files_state_last_vid (st : FMState) :
    (move_recorded_files_state st).last_vid_name = st.last_vid_name := by
  cases h : st.current_using_folder <;> simp [move_recorded_files_state, h]

theorem move_recorded_files_state_last_used (st : FMState) :
    (move_recorded_files_state st).last_used_folder = st.last_used_folder := by
  cases h : st.current_using_folder <;> simp [move_recorded_files_state, h]

end FM

/-- The OBSStatus enumeration of obsRecording.py. -/
inductive OBSStatus
  | NOT_CONNECTED
  | CONNECTED
  | RECORDING_STARTED
  | RECORDING_STOPPED
  | ERROR
  | IDLE
  | KILL
  | SAVING
deriving DecidableEq

/-- Result of running a Python method body: a normal return value, a
raised exception escaping the method, or nontermination of an unbounded
loop (only the fuelled queue drain can produce hang). -/
inductive PyResult (α : Type)
  | ret (a : α)
  | exn (msg : String)
  | hang
deriving DecidableEq

/-- Observable outcome of a controller method that itself returns None:
ok for the success path, err for a printed OBS ERROR early return or
caught exception, hang propagated from the fuelled drain. -/
inductive Outcome
  | ok
  | err (msg : String)
  | hang
deriving DecidableEq

/-- Behaviour of the OBS WebSocket backend primitives for one scenario:
none means the primitive succeeds, some e means it raises exception e. -/
structure Backend where
  startExn : Option String
  stopExn : Option String
deriving DecidableEq

/-- Mutable state of one OBSController together with its file manager and
the modelled filesystem.  ws is the truthiness of the self.ws handle;
queued_operations holds the arguments captured by each queued
set_save_location closure, in arrival order. -/
structure CState where
  statusCode : OBSStatus
  ws : Bool
  queued_operations : List (Option Path × String)
  last_upload_health : Bool × String
  fm : FMState
  fs : Finset Path
deriving DecidableEq

namespace OBSController

/-- Model of OBSController.set_save_location.  Outside IDLE the call is
queued and returns False; in IDLE it transitions through SAVING, runs the
file manager, and returns True.  An exception inside the file manager
escapes with statusCode left at SAVING. -/
def set_save_location (popUpYes : Bool) (today : String) (st : CState)
    (root_folder : Option Path) (vid_name : String) : CState × PyResult Bool :=
  if st.statusCode ≠ OBSStatus.IDLE then
    ({ st with queued_operations := st.queued_operations ++ [(root_folder, vid_name)] },
     PyResult.ret false)
  else
    let st := { st with statusCode := OBSStatus.SAVING }
    match FM.set_save_location popUpYes today st.fs st.fm root_folder vid_name with
    | Except.error e => (st, PyResult.exn e)
    | Except.ok (fs', fm') =>
      ({ st with fs := fs', fm := fm', statusCode := OBSStatus.IDLE }, PyResult.ret true)

/-- Model of OBSController.pop_all_queued_operations: pop the front of the
queue and invoke it (the stored call is always self.set_save_location)
until the queue is empty.  The fuel argument bounds the number of loop
iterations; exhausting it yields hang. -/
def pop_all_queued_operations (popUpYes : Bool) (today : String) :
    ℕ → CState → CState × PyResult Unit
  | fuel, st =>
    match st.queued_operations with
    | [] => (st, PyResult.ret ())
    | (root, vid) :: rest =>
      match fuel with
      | 0 => (st, PyResult.hang)
      | fuel + 1 =>
        match set_save_location popUpYes today { st with queued_operations := rest } root vid with
        | (st', PyResult.ret _) => pop_all_queued_operations popUpYes today fuel st'
        | (st', PyResult.exn e) => (st', PyResult.exn e)
        | (st', PyResult.hang) => (st', PyResult.hang)

end OBSController

namespace RecordingController

/-- Model of RecordingController.start_recording: guarded by IDLE and a
live WebSocket handle; a backend exception is caught, reported, and
leaves the state unchanged. -/
def start_recording (backend : Backend) (st : CState) : CState × Outcome :=
  if st.statusCode ≠ OBSStatus.IDLE then
    (st, Outcome.err "[OBS ERROR] OBS is not IDLE. Cannot start recording.")
  else if !st.ws then
    (st, Outcome.err "[OBS ERROR] WebSocket connection not established. Cannot start recording.")
  else
    match backend.startExn with
    | some e => (st, Outcome.err ("[OBS ERROR] Failed to start recording: " ++ e))
    | none => ({ st with statusCode := OBSStatus.RECORDING_STARTED }, Outcome.ok)

/-- Model of RecordingController.stop_recording: guarded by
RECORDING_STARTED and a live handle.  On backend success it runs the
archival sequence (move then prepend), sets IDLE and, when the queue is
nonempty, drains it with fuel equal to the queue length.  A backend stop
exception is caught and reported with the state unchanged; an exception
escaping the drain is caught by the same handler.  The sleep calls have
no modelled effect. -/
def stop_recording (backend : Backend) (popUpYes : Bool) (today : String)
    (st : CState) : CState × Outcome :=
  if st.statusCode ≠ OBSStatus.RECORDING_STARTED then
    (st, Outcome.err "[OBS ERROR] Recording is not active. Cannot stop recording.")
  else if !st.ws then
    (st, Outcome.err "[OBS ERROR] WebSocket connection not established. Cannot stop recording.")
  else
    match backend.stopExn with
    | some e => (st, Outcome.err ("[OBS ERROR] Failed to stop recording: " ++ e))
    | none =>
      let st := { st with fm := FM.move_recorded_files_state st.fm }
      let st := { st with fm := FM.prepend_vid_name_state st.fm }
      let st := { st with statusCode := OBSStatus.IDLE }
      if st.queued_operations = [] then (st, Outcome.ok)
      else
        match OBSController.pop_all_queued_operations popUpYes today
            st.queued_operations.length st with
        | (st', PyResult.ret _) => (st', Outcome.ok)
        | (st', PyResult.exn e) => (st', Outcome.err ("[OBS ERROR] Failed to stop recording: " ++ e))
        | (st', PyResult.hang) => (st', Outcome.hang)

end RecordingController

namespace OBSController

/-- Model of OBSController.start_recording: rejects outside IDLE, then
delegates to the recording controller when a handle exists. -/
def start_recording (backend : Backend) (st : CState) : CState × Outcome :=
  if st.statusCode ≠ OBSStatus.IDLE then
    (st, Outcome.err "[OBS ERROR] OBS is not IDLE. Cannot start recording.")
  else if st.ws then RecordingController.start_recording backend st
  else (st, Outcome.err "[OBS ERROR] Not connected to OBS WebSocket. Cannot start recording.")

/-- Model of OBSController.stop_recording: rejects outside
RECORDING_STARTED, then delegates to the recording controller and
afterwards sets statusCode to IDLE unconditionally (source line 115),
even when the inner call failed and left the status untouched. -/
def stop_recording (backend : Backend) (popUpYes : Bool) (today : String)
    (st : CState) : CState × Outcome :=
  if st.statusCode ≠ OBSStatus.RECORDING_STARTED then
    (st, Outcome.err "[OBS ERROR] Recording is not active. Cannot stop recording.")
  else
    let r := RecordingController.stop_recording backend popUpYes today st
    ({ r.1 with statusCode := OBSStatus.IDLE }, r.2)

end OBSController

/-- The SetName branch of OBSWebSocketInterface.handler: the stored
save_folder is passed explicitly (never None) as the root, and the text
after the 8 characters of the command keyword and its space becomes the
label. -/
def handleSetName (save_folder : Path) (message : String) : Option Path × String :=
  (some save_folder, message.drop 8)

namespace Archiver

/-- One regular file in the buffer folder, with the number of leading
move or rename attempts on it that raise PermissionError because another
process holds a lock; from attempt number lockedAttempts onward the
operation succeeds. -/
structure BufFile where
  name : String
  lockedAttempts : ℕ
deriving DecidableEq

/-- The retry while loop shared by move_recorded_files and
prepend_vid_name_last_recordings: attemptsDone counts attempts already
made (the retries variable), rem is how many loop iterations remain out
of max_retries.  Returns true when the file operation eventually
succeeds, false when all attempts raised PermissionError.  The
time.sleep delay has no modelled effect. -/
def move_with_retries (locked : ℕ) : ℕ → ℕ → Bool
  | _, 0 => false
  | attemptsDone, rem + 1 =>
    if locked ≤ attemptsDone then true
    else move_with_retries locked (attemptsDone + 1) rem

/-- Whether one file operation on a file locked for the first locked
attempts succeeds within max_retries attempts. -/
def move_file (locked max_retries : ℕ) : Bool :=
  move_with_retries locked 0 max_retries

theorem move_with_retries_true_iff (locked : ℕ) :
    ∀ rem attemptsDone, move_with_retries locked attemptsDone rem = true ↔
      (locked < attemptsDone + rem ∧ rem ≠ 0) := by
  intro rem
  induction rem with
  | zero => intro a; simp [move_with_retries]
  | succ n ih =>
    intro a
    by_cases h : locked ≤ a
    · simp [move_with_retries, if_pos h]
      omega
    · rw [move_with_retries, if_neg h, ih (a + 1)]
      constructor
      · rintro ⟨h1, h2⟩
        exact ⟨by omega, by omega⟩
      · rintro ⟨h1, _⟩
        constructor
        · omega
        · intro h0
          omega

theorem move_file_eq_decide (locked m : ℕ) :
    move_file locked m = decide (locked < m) := by
  by_cases h : locked < m
  · rw [decide_eq_true h]
    exact (move_with_retries_true_iff locked m 0).mpr ⟨by omega, by omega⟩
  · rw [decide_eq_false h, ← Bool.not_eq_true]
    intro htrue
    have := (move_with_retries_true_iff locked m 0).mp htrue
    omega

/-- Model of FileManagementController.move_recorded_files restricted to
the per-file loop: every regular file of the buffer folder is moved into
the current session folder with the retry policy; the result collects
the names moved successfully and the names whose retries were exhausted
(reported with a per-file failure message), processed in listing order.
The guard requiring a current folder and the sessions_started update are
modelled at the controller layer by FM.move_recorded_files_state. -/
def move_recorded_files (files : List BufFile) (max_retries : ℕ) :
    List String × List String :=
  match files with
  | [] => ([], [])
  | f :: rest =>
    let r := move_recorded_files rest max_retries
    if move_file f.lockedAttempts max_retries then (f.name :: r.1, r.2)
    else (r.1, f.name :: r.2)

/-- Model of FileManagementController.prepend_vid_name_last_recordings
restricted to the per-file loop: each regular file of the session folder
is renamed to vid_name, an underscore, then its original name, with the
same retry policy; a file whose retries are exhausted keeps its name.
lockOf gives the per-file locked-attempt count at this call. -/
def prepend_vid_name_last_recordings (vid_name : String) (lockOf : String → ℕ)
    (max_retries : ℕ) (files : List String) : List String :=
  files.map (fun n =>
    if move_file (lockOf n) max_retries then vid_name ++ "_" ++ n else n)

end Archiver

namespace Upload

/-- One entry of os.listdir on the current session folder: its name,
whether it is a regular file, and the HTTP status code the endpoint
answers for it. -/
structure UploadEntry where
  name : String
  isFile : Bool
  status : ℕ
deriving DecidableEq

/-- Model of requests raise_for_status: an HTTPError is raised exactly
for status codes 400 to 599. -/
def raise_for_status (status : ℕ) : PyResult ℕ :=
  if 400 ≤ status ∧ status < 600 then PyResult.exn "HTTPError"
  else PyResult.ret status

/-- Model of send_file_to_endpoint: a missing file raises
FileNotFoundError, then the POST response goes through
raise_for_status. -/
def send_file_to_endpoint (fileOnDisk : Bool) (status : ℕ) : PyResult ℕ :=
  if !fileOnDisk then PyResult.exn "FileNotFoundError"
  else raise_for_status status

/-- The per-file loop of OBSController.upload_last_recordings: each
regular file is posted synchronously; a raised exception escapes the
loop immediately.  The first component records the files posted, in
order, including the one whose response raised. -/
def upload_loop : List UploadEntry → List String × PyResult Unit
  | [] => ([], PyResult.ret ())
  | e :: rest =>
    if e.isFile then
      match send_file_to_endpoint true e.status with
      | PyResult.exn m => ([e.name], PyResult.exn m)
      | PyResult.ret _ =>
        let r := upload_loop rest
        (e.name :: r.1, r.2)
      | PyResult.hang => ([e.name], PyResult.hang)
    else upload_loop rest

/-- Model of OBSController.upload_last_recordings.  The result triple is
the stored last_upload_health after the call, the outcome of the call (a
returned pair or an escaped exception), and the names posted.  A missing
current folder or a folder absent from disk stores and returns an error
pair; an existing folder, empty or not, whose posts all succeed stores
and returns (true, Good); an exception leaves the stored health
unchanged and escapes. -/
def upload_last_recordings (current_using_folder : Option Path)
    (folderOnDisk : Bool) (listing : List UploadEntry)
    (last_upload_health : Bool × String) :
    (Bool × String) × PyResult (Bool × String) × List String :=
  match current_using_folder with
  | none =>
    let error := "[OBS ERROR] No last used folder set for the recording. Cannot upload recordings."
    ((false, error), PyResult.ret (false, error), [])
  | some _ =>
    if !folderOnDisk then
      let error := "[OBS ERROR] Last used folder does not exist."
      ((false, error), PyResult.ret (false, error), [])
    else
      match upload_loop listing with
      | (sent, PyResult.ret _) => ((true, "Good"), PyResult.ret (true, "Good"), sent)
      | (sent, PyResult.exn m) => (last_upload_health, PyResult.exn m, sent)
      | (sent, PyResult.hang) => (last_upload_health, PyResult.hang, sent)

theorem upload_loop_all_ok (listing : List UploadEntry)
    (h : ∀ e ∈ listing, e.isFile = true → ¬(400 ≤ e.status ∧ e.status < 600)) :
    upload_loop listing =
      ((listing.filter (fun e => e.isFile)).map UploadEntry.name, PyResult.ret ()) := by
  induction listing with
  | nil => simp [upload_loop]
  | cons e rest ih =>
    by_cases hf : e.isFile
    · have he := h e (by simp) hf
      simp [upload_loop, hf, send_file_to_endpoint, raise_for_status, he,
        ih (fun x hx => h x (by simp [hx]))]
    · simp [upload_loop, hf, ih (fun x hx => h x (by simp [hx]))]

theorem upload_loop_first_failure (pre : List UploadEntry) (f : UploadEntry)
    (post : List UploadEntry)
    (hpre : ∀ e ∈ pre, e.isFile = true → ¬(400 ≤ e.status ∧ e.status < 600))
    (hf : f.isFile = true) (h4 : 400 ≤ f.status) (h6 : f.status < 600) :
    upload_loop (pre ++ f :: post) =
      ((pre.filter (fun e => e.isFile)).map UploadEntry.name ++ [f.name],
       PyResult.exn "HTTPError") := by
  induction pre with
  | nil =>
    simp [upload_loop, hf, send_file_to_endpoint, raise_for_status, h4, h6]
  | cons e rest ih =>
    by_cases hef : e.isFile
    · have he := hpre e (by simp) hef
      simp [upload_loop, hef, send_file_to_endpoint, raise_for_status, he,
        ih (fun x hx => hpre x (by simp [hx]))]
    · simp [upload_loop, hef, ih (fun x hx => hpre x (by simp [hx]))]

end Upload

namespace Health

/-- Lower-casing of str.lower, on the character list of the string. -/
def to_lower (s : String) : List Char := s.data.map Char.toLower

/-- Suffix test of str.endswith, on character lists. -/
def ends_with (s : List Char) (pat : String) : Bool :=
  decide (s.reverse.take pat.data.length = pat.data.reverse)

/-- The video extension test of check_last_used_folder:
file.lower().endswith on the four video extensions. -/
def isVideoName (n : String) : Bool :=
  ends_with (to_lower n) ".mp4" || ends_with (to_lower n) ".avi" ||
    ends_with (to_lower n) ".mov" || ends_with (to_lower n) ".mkv"

/-- Normalized mean squared error between two grayscale frames, as in
is_first_last_same: mean of squared pixel differences divided by 255
squared.  Frames are lists of pixel values; the float arithmetic of
numpy is modelled exactly over the rationals. -/
def norm_mse (g1 g2 : List ℚ) : ℚ :=
  (((g1.zip g2).map (fun p => (p.1 - p.2) ^ 2)).sum / ((g1.zip g2).length : ℚ)) / (255 ^ 2)

/-- Model of FileManagementController.is_first_last_same: decode the
frame at 0.0 seconds and the frame 0.1 seconds before the end of the
video (ffmpeg sseof -0.1), convert to grayscale, and compare their
normalized mean squared error against diff_thresh.  frameAt is the
injected decoding collaborator: nonnegative times count from the start,
negative from the end. -/
def is_first_last_same (frameAt : ℚ → List ℚ) (diff_thresh : ℚ) : Bool :=
  let g1 := frameAt 0
  let g2 := frameAt (-(1 / 10))
  decide (norm_mse g1 g2 < diff_thresh)

/-- One entry of os.listdir on the last used folder, with its injected
frame decoder. -/
structure MediaFile where
  name : String
  isFile : Bool
  frameAt : ℚ → List ℚ

/-- The per-file integrity failure message of check_last_used_folder. -/
def integrity_error (n : String) : String :=
  "[OBS ERROR] Video " ++ n ++ " has the same first and last frame."

/-- The file loop of check_last_used_folder: directories are skipped,
non-video files are not decoded, and the first video whose two probed
frames agree within the threshold aborts with an integrity failure. -/
def scan_files (diff_thresh : ℚ) : List MediaFile → Bool × String
  | [] => (true, "Good")
  | f :: rest =>
    if f.isFile && isVideoName f.name && is_first_last_same f.frameAt diff_thresh
    then (false, integrity_error f.name)
    else scan_files diff_thresh rest

/-- Model of FileManagementController.check_last_used_folder.  Before any
session has started the check succeeds trivially; afterwards a missing
last-used folder reference, a folder absent from disk, or an empty
listing fails, and otherwise the video files are probed with threshold
1e-6. -/
def check_last_used_folder (sessions_started : Bool)
    (last_used_folder : Option Path) (folderOnDisk : Bool)
    (files : List MediaFile) : Bool × String :=
  if !sessions_started then (true, "Good")
  else
    match last_used_folder with
    | none =>
      (false, "[OBS ERROR] No last used folder set for the recording. Cannot check the last used folder.")
    | some _ =>
      if !folderOnDisk then (false, "[OBS ERROR] Last used folder does not exist.")
      else if files.isEmpty then (false, "[OBS ERROR] Last used folder is empty.")
      else scan_files (1 / 1000000) files

theorem sum_sq_diff_self (g : List ℚ) :
    ((g.zip g).map (fun p => (p.1 - p.2) ^ 2)).sum = 0 := by
  induction g with
  | nil => simp
  | cons a t ih => simp [ih]

theorem norm_mse_self (g : List ℚ) : norm_mse g g = 0 := by
  simp [norm_mse, sum_sq_diff_self]

theorem scan_files_false (t : ℚ) :
    ∀ files : List MediaFile,
      (∃ f ∈ files, f.isFile = true ∧ isVideoName f.name = true ∧
        is_first_last_same f.frameAt t = true) →
      (scan_files t files).1 = false ∧
      ∃ n, (scan_files t files).2 = integrity_error n := by
  intro files
  induction files with
  | nil => rintro ⟨f, hf, _⟩; simp at hf
  | cons f0 rest ih =>
    rintro ⟨f, hf, h1, h2, h3⟩
    by_cases hc : f0.isFile && isVideoName f0.name && is_first_last_same f0.frameAt t
    · exact ⟨by simp [scan_files, hc], f0.name, by simp [scan_files, hc]⟩
    · rcases List.mem_cons.mp hf with rfl | hmem
      · exact absurd (by simp [h1, h2, h3]) hc
      · have := ih ⟨f, hmem, h1, h2, h3⟩
        simpa [scan_files, hc] using this

end Health

theorem move_recorded_files_partition (max_retries : ℕ) :
    ∀ files : List Archiver.BufFile,
      (Archiver.move_recorded_files files max_retries).1 =
        (files.filter (fun f => decide (f.lockedAttempts < max_retries))).map
          Archiver.BufFile.name ∧
      (Archiver.move_recorded_files files max_retries).2 =
        (files.filter (fun f => decide (max_retries ≤ f.lockedAttempts))).map
          Archiver.BufFile.name := by
  intro files
  induction files with
  | nil => simp [Archiver.move_recorded_files]
  | cons f rest ih =>
    by_cases h : f.lockedAttempts < max_retries
    · have h' : ¬ max_retries ≤ f.lockedAttempts := by omega
      simp [Archiver.move_recorded_files, Archiver.move_file_eq_decide, h, h',
        ih.1, ih.2]
    · have h' : max_retries ≤ f.lockedAttempts := by omega
      simp [Archiver.move_recorded_files, Archiver.move_file_eq_decide, h, h',
        ih.1, ih.2]

/-- C6: a buffer file whose move is locked for fewer than max_retries
attempts is moved successfully, a file locked for all attempts is
reported as failed individually, and the remaining files of the same
call are still processed: the moved and failed result lists are exactly
the per-file partition of the listing by the retry bound, and, when the
listed names are distinct, a file moved successfully has no failure
reported for it. -/
theorem C6_move_retry_tolerance (files : List Archiver.BufFile) (max_retries : ℕ) :
    (Archiver.move_recorded_files files max_retries).1 =
      (files.filter (fun f => decide (f.lockedAttempts < max_retries))).map
        Archiver.BufFile.name ∧
    (Archiver.move_recorded_files files max_retries).2 =
      (files.filter (fun f => decide (max_retries ≤ f.lockedAttempts))).map
        Archiver.BufFile.name ∧
    ((files.map Archiver.BufFile.name).Nodup →
      ∀ f ∈ files, f.lockedAttempts < max_retries →
        f.name ∉ (Archiver.move_recorded_files files max_retries).2) := by
  obtain ⟨h1, h2⟩ := move_recorded_files_partition max_retries files
  refine ⟨h1, h2, ?_⟩
  intro hnd f hf hlt hmem
  rw [h2] at hmem
  rcases List.mem_map.mp hmem with ⟨g, hg, hname⟩
  rcases List.mem_filter.mp hg with ⟨hgmem, hgdec⟩
  have hge : max_retries ≤ g.lockedAttempts := of_decide_eq_true hgdec
  have hgf : g = f := List.inj_on_of_nodup_map hnd hgmem hf hname
  subst hgf
  omega

/-- Witness for C6 at the spec scenario: with max_retries 6, a file
locked for 2 attempts is moved with no failure reported, a file locked
for all 6 attempts is the only failure, and the unrelated unlocked file
still succeeds. -/
theorem C6_move_retry_tolerance_witness :
    (Archiver.move_recorded_files
        [⟨"a.mp4", 2⟩, ⟨"b.mp4", 6⟩, ⟨"c.mp4", 0⟩] 6).1 = ["a.mp4", "c.mp4"] ∧
    (Archiver.move_recorded_files
        [⟨"a.mp4", 2⟩, ⟨"b.mp4", 6⟩, ⟨"c.mp4", 0⟩] 6).2 = ["b.mp4"] ∧
    "a.mp4" ∉ (Archiver.move_recorded_files
        [⟨"a.mp4", 2⟩, ⟨"b.mp4", 6⟩, ⟨"c.mp4", 0⟩] 6).2 := by
  obtain ⟨h1, h2, h3⟩ :=
    C6_move_retry_tolerance [⟨"a.mp4", 2⟩, ⟨"b.mp4", 6⟩, ⟨"c.mp4", 0⟩] 6
  refine ⟨by rw [h1]; rfl, by rw [h2]; rfl, ?_⟩
  exact h3 (by decide) ⟨"a.mp4", 2⟩ (by simp) (by decide)

/-- C8: prepend_vid_name_last_recordings renames every regular file of
the folder to the label, an underscore, then the original name (shown
with no locked attempts so every rename succeeds); applied once to a
folder holding a.mp4 with label TAKE1 it yields TAKE1_a.mp4 and applied
twice it yields TAKE1_TAKE1_a.mp4, so the operation is not
idempotent. -/
theorem C8_prepend_not_idempotent :
    (∀ (vid : String) (files : List String) (lockOf : String → ℕ) (max_retries : ℕ),
      (∀ n, lockOf n < max_retries) →
      Archiver.prepend_vid_name_last_recordings vid lockOf max_retries files =
        files.map (fun n => vid ++ "_" ++ n)) ∧
    Archiver.prepend_vid_name_last_recordings "TAKE1" (fun _ => 0) 6 ["a.mp4"] =
      ["TAKE1_a.mp4"] ∧
    Archiver.prepend_vid_name_last_recordings "TAKE1" (fun _ => 0) 6
        (Archiver.prepend_vid_name_last_recordings "TAKE1" (fun _ => 0) 6 ["a.mp4"]) =
      ["TAKE1_TAKE1_a.mp4"] ∧
    Archiver.prepend_vid_name_last_recordings "TAKE1" (fun _ => 0) 6
        (Archiver.prepend_vid_name_last_recordings "TAKE1" (fun _ => 0) 6 ["a.mp4"]) ≠
      Archiver.prepend_vid_name_last_recordings "TAKE1" (fun _ => 0) 6 ["a.mp4"] := by
  refine ⟨?_, by decide, by decide, by decide⟩
  intro vid files lockOf max_retries hlt
  refine List.map_congr_left ?_
  intro n _
  rw [Archiver.move_file_eq_decide, decide_eq_true (hlt n), if_pos rfl]

/-- Witness for C8: the universally quantified renaming clause applied at
a concrete folder with two files and the all-unlocked lock profile. -/
theorem C8_prepend_not_idempotent_witness :
    Archiver.prepend_vid_name_last_recordings "TAKE1" (fun _ => 1) 6
        ["a.mp4", "b.mkv"] = ["TAKE1_a.mp4", "TAKE1_b.mkv"] := by
  rw [C8_prepend_not_idempotent.1 "TAKE1" ["a.mp4", "b.mkv"] (fun _ => 1) 6
    (fun _ => by simp)]
  rfl

/-- C5 (amended): upload_last_recordings requires a current session
folder reference whose folder exists on disk, failing with a stored
error result when the reference is missing or the folder is absent; it
does not require the folder to be non-empty: an existing empty folder
uploads nothing and reports success.  Each regular file is uploaded
synchronously in listing order; while every response stays outside
400..599 all regular files are posted and (true, Good) is stored and
returned; at the first file whose response is in 400..599 the loop
stops, HTTPError propagates to the caller as a raised exception rather
than a returned message, and the stored health is left unchanged. -/
theorem C5_upload_last_recordings (p : Path) (folderOnDisk : Bool)
    (listing : List Upload.UploadEntry) (health : Bool × String) :
    (Upload.upload_last_recordings none folderOnDisk listing health =
      ((false, "[OBS ERROR] No last used folder set for the recording. Cannot upload recordings."),
       PyResult.ret (false, "[OBS ERROR] No last used folder set for the recording. Cannot upload recordings."),
       [])) ∧
    (Upload.upload_last_recordings (some p) false listing health =
      ((false, "[OBS ERROR] Last used folder does not exist."),
       PyResult.ret (false, "[OBS ERROR] Last used folder does not exist."), [])) ∧
    ((∀ e ∈ listing, e.isFile = true → ¬(400 ≤ e.status ∧ e.status < 600)) →
      Upload.upload_last_recordings (some p) true listing health =
        ((true, "Good"), PyResult.ret (true, "Good"),
         (listing.filter (fun e => e.isFile)).map Upload.UploadEntry.name)) ∧
    (∀ pre f post, listing = pre ++ f :: post →
      (∀ e ∈ pre, e.isFile = true → ¬(400 ≤ e.status ∧ e.status < 600)) →
      f.isFile = true → 400 ≤ f.status → f.status < 600 →
      Upload.upload_last_recordings (some p) true listing health =
        (health, PyResult.exn "HTTPError",
         (pre.filter (fun e => e.isFile)).map Upload.UploadEntry.name ++ [f.name])) := by
  refine ⟨rfl, rfl, ?_, ?_⟩
  · intro h
    simp [Upload.upload_last_recordings, Upload.upload_loop_all_ok listing h]
  · intro pre f post hcat hpre hf h4 h6
    subst hcat
    simp [Upload.upload_last_recordings,
      Upload.upload_loop_first_failure pre f post hpre hf h4 h6]

/-- Witness for C5 at a concrete listing: the first 500 response stops
the batch after the second file, escapes as HTTPError, and leaves the
stored health untouched; and a listing of successes stores (true, Good). -/
theorem C5_upload_last_recordings_witness :
    Upload.upload_last_recordings (some [Comp.name "S"]) true
        [⟨"a.mp4", true, 200⟩, ⟨"bad.mp4", true, 500⟩, ⟨"c.mp4", true, 200⟩]
        (true, "Good") =
      ((true, "Good"), PyResult.exn "HTTPError", ["a.mp4", "bad.mp4"]) ∧
    Upload.upload_last_recordings (some [Comp.name "S"]) true
        [⟨"a.mp4", true, 200⟩] (false, "stale") =
      ((true, "Good"), PyResult.ret (true, "Good"), ["a.mp4"]) := by
  constructor
  · have h := (C5_upload_last_recordings [Comp.name "S"] true
      [⟨"a.mp4", true, 200⟩, ⟨"bad.mp4", true, 500⟩, ⟨"c.mp4", true, 200⟩]
      (true, "Good")).2.2.2 [⟨"a.mp4", true, 200⟩] ⟨"bad.mp4", true, 500⟩
      [⟨"c.mp4", true, 200⟩] rfl (by decide) rfl (by decide) (by decide)
    rw [h]
    rfl
  · have h := (C5_upload_last_recordings [Comp.name "S"] true
      [⟨"a.mp4", true, 200⟩] (false, "stale")).2.2.1 (by decide)
    rw [h]
    rfl

/-- C5 counterexample: on a current session folder that exists but is
empty the claim requires a stored error failure, yet the code posts
nothing, stores (true, Good) and returns success. -/
theorem C5_counterexample :
    Upload.upload_last_recordings (some [Comp.name "session"]) true [] (false, "stale") =
      ((true, "Good"), PyResult.ret (true, "Good"), []) := by
  rfl

/-- C7: with no session started the health check reports success
trivially; once a session has started it fails when the last-used folder
reference is missing, the folder is absent from disk, or its listing is
empty; it fails with an integrity message when some listed video file
has its decoded frame at 0.0 seconds within normalized mean squared
error 1e-6 of its frame 0.1 seconds before the end; the comparison
depends only on those two decoded frames, and pixel-identical frames
always trigger it.  Every branch returns an (ok, message) pair. -/
theorem C7_check_last_used_folder (p : Path) (folderOnDisk : Bool)
    (files : List Health.MediaFile) :
    (Health.check_last_used_folder false (some p) folderOnDisk files = (true, "Good")) ∧
    (Health.check_last_used_folder false none folderOnDisk files = (true, "Good")) ∧
    ((Health.check_last_used_folder true none folderOnDisk files).1 = false) ∧
    ((Health.check_last_used_folder true (some p) false files).1 = false) ∧
    ((Health.check_last_used_folder true (some p) true []).1 = false) ∧
    ((∃ f ∈ files, f.isFile = true ∧ Health.isVideoName f.name = true ∧
        Health.is_first_last_same f.frameAt (1 / 1000000) = true) →
      (Health.check_last_used_folder true (some p) true files).1 = false ∧
      ∃ n, (Health.check_last_used_folder true (some p) true files).2 =
        Health.integrity_error n) ∧
    (∀ (fa fb : ℚ → List ℚ) (t : ℚ), fa 0 = fb 0 →
      fa (-(1 / 10)) = fb (-(1 / 10)) →
      Health.is_first_last_same fa t = Health.is_first_last_same fb t) ∧
    (∀ fa : ℚ → List ℚ, fa 0 = fa (-(1 / 10)) →
      Health.is_first_last_same fa (1 / 1000000) = true) := by
  refine ⟨rfl, rfl, rfl, rfl, rfl, ?_, ?_, ?_⟩
  · rintro ⟨f, hf, h1, h2, h3⟩
    match files, hf with
    | f0 :: rest, hf =>
      have := Health.scan_files_false (1 / 1000000) (f0 :: rest) ⟨f, hf, h1, h2, h3⟩
      simpa [Health.check_last_used_folder] using this
  · intro fa fb t h1 h2
    simp only [Health.is_first_last_same]
    rw [h1, h2]
  · intro fa h
    simp only [Health.is_first_last_same]
    rw [h, Health.norm_mse_self]
    exact decide_eq_true (by norm_num)

/-- Witness for C7: a session folder whose single video decodes to the
same frame at both probe times reports failure with the integrity
message, and with no session started the same inputs report success. -/
theorem C7_check_last_used_folder_witness :
    (Health.check_last_used_folder true (some [Comp.name "L"]) true
        [⟨"v.mp4", true, fun _ => [0, 0]⟩]).1 = false ∧
    (∃ n, (Health.check_last_used_folder true (some [Comp.name "L"]) true
        [⟨"v.mp4", true, fun _ => [0, 0]⟩]).2 = Health.integrity_error n) ∧
    Health.check_last_used_folder false (some [Comp.name "L"]) true
        [⟨"v.mp4", true, fun _ => [0, 0]⟩] = (true, "Good") := by
  have h := C7_check_last_used_folder [Comp.name "L"] true
    [⟨"v.mp4", true, fun _ => [0, 0]⟩]
  have hsame : Health.is_first_last_same (fun _ : ℚ => ([0, 0] : List ℚ))
      (1 / 1000000) = true := h.2.2.2.2.2.2.2 (fun _ => [0, 0]) rfl
  have hfail := h.2.2.2.2.2.1
    ⟨⟨"v.mp4", true, fun _ => [0, 0]⟩, by simp, rfl, by decide, hsame⟩
  exact ⟨hfail.1, hfail.2, h.1⟩

/-- C9: a start call in IDLE with a live backend transitions to
RECORDING_STARTED; an immediately following second start call, whatever
the backend would do, leaves the whole state unchanged, performs no
backend action (the result does not depend on the backend), and reports
an error rather than raising. -/
theorem C9_double_start (backend : Backend) (st : CState)
    (h1 : st.statusCode = OBSStatus.IDLE) (h2 : st.ws = true)
    (h3 : backend.startExn = none) :
    (OBSController.start_recording backend st).2 = Outcome.ok ∧
    (OBSController.start_recording backend st).1.statusCode =
      OBSStatus.RECORDING_STARTED ∧
    ∀ backend2 : Backend,
      OBSController.start_recording backend2
          (OBSController.start_recording backend st).1 =
        ((OBSController.start_recording backend st).1,
         Outcome.err "[OBS ERROR] OBS is not IDLE. Cannot start recording.") := by
  have e1 : OBSController.start_recording backend st =
      ({ st with statusCode := OBSStatus.RECORDING_STARTED }, Outcome.ok) := by
    simp [OBSController.start_recording, RecordingController.start_recording,
      h1, h2, h3]
  refine ⟨by rw [e1], by rw [e1], ?_⟩
  intro backend2
  rw [e1]
  simp [OBSController.start_recording]

/-- Witness for C9 at a concrete idle connected state. -/
theorem C9_double_start_witness :
    (OBSController.start_recording ⟨none, none⟩
      { statusCode := OBSStatus.IDLE, ws := true, queued_operations := [],
        last_upload_health := (true, "Good"),
        fm := { buffer_folder := [Comp.name "B"], last_vid_name := none,
                current_using_folder := none, last_used_root_folder := none,
                last_used_folder := none, sessions_started := false,
                execLog := [] },
        fs := ∅ }).2 = Outcome.ok ∧
    ∀ backend2 : Backend,
      (OBSController.start_recording backend2
        (OBSController.start_recording ⟨none, none⟩
          { statusCode := OBSStatus.IDLE, ws := true, queued_operations := [],
            last_upload_health := (true, "Good"),
            fm := { buffer_folder := [Comp.name "B"], last_vid_name := none,
                    current_using_folder := none, last_used_root_folder := none,
                    last_used_folder := none, sessions_started := false,
                    execLog := [] },
            fs := ∅ }).1).2 =
        Outcome.err "[OBS ERROR] OBS is not IDLE. Cannot start recording." := by
  have h := C9_double_start ⟨none, none⟩
    { statusCode := OBSStatus.IDLE, ws := true, queued_operations := [],
      last_upload_health := (true, "Good"),
      fm := { buffer_folder := [Comp.name "B"], last_vid_name := none,
              current_using_folder := none, last_used_root_folder := none,
              last_used_folder := none, sessions_started := false,
              execLog := [] },
      fs := ∅ } rfl rfl rfl
  exact ⟨h.1, fun backend2 => by rw [h.2.2 backend2]⟩

/-- C10: a set_save_location call whose root argument is None does not
fail: it behaves exactly as a call passing the stored
last_used_root_folder, so after a successful call whose root still
exists a later None call succeeds and reuses that root; and the SetName
command path passes its stored save folder explicitly, never None. -/
theorem C10_none_root_fallback (popUpYes : Bool) (today : String)
    (fs : Finset Path) (st : FMState) (r : Path) (vid : String)
    (h : st.last_used_root_folder = some r) (hr : r ∈ fs) :
    (FM.set_save_location popUpYes today fs st none vid =
      FM.set_save_location popUpYes today fs st (some r) vid) ∧
    (∃ fs' fm', FM.set_save_location popUpYes today fs st none vid =
      Except.ok (fs', fm') ∧ fm'.last_used_root_folder = some r) ∧
    ∀ (save_folder : Path) (message : String),
      (handleSetName save_folder message).1 = some save_folder := by
  have e0 : FM.set_save_location popUpYes today fs st none vid =
      FM.set_save_location popUpYes today fs st (some r) vid := by
    simp [FM.set_save_location, h]
  refine ⟨e0, ?_, fun _ _ => rfl⟩
  rw [e0, FM.set_save_location_of_mem popUpYes today fs st r vid hr]
  exact ⟨_, _, rfl, rfl⟩

/-- Witness for C10 at a concrete state holding a stored root. -/
theorem C10_none_root_fallback_witness :
    FM.set_save_location true "2026-02-03" {[Comp.name "R"]}
        { buffer_folder := [Comp.name "B"], last_vid_name := none,
          current_using_folder := none,
          last_used_root_folder := some [Comp.name "R"],
          last_used_folder := none, sessions_started := false, execLog := [] }
        none "take" =
      FM.set_save_location true "2026-02-03" {[Comp.name "R"]}
        { buffer_folder := [Comp.name "B"], last_vid_name := none,
          current_using_folder := none,
          last_used_root_folder := some [Comp.name "R"],
          last_used_folder := none, sessions_started := false, execLog := [] }
        (some [Comp.name "R"]) "take" ∧
    ∃ fs' fm', FM.set_save_location true "2026-02-03" {[Comp.name "R"]}
        { buffer_folder := [Comp.name "B"], last_vid_name := none,
          current_using_folder := none,
          last_used_root_folder := some [Comp.name "R"],
          last_used_folder := none, sessions_started := false, execLog := [] }
        none "take" = Except.ok (fs', fm') ∧
      fm'.last_used_root_folder = some [Comp.name "R"] := by
  have h := C10_none_root_fallback true "2026-02-03" {[Comp.name "R"]}
    { buffer_folder := [Comp.name "B"], last_vid_name := none,
      current_using_folder := none,
      last_used_root_folder := some [Comp.name "R"],
      last_used_folder := none, sessions_started := false, execLog := [] }
    [Comp.name "R"] "take" rfl (by decide)
  exact ⟨h.1, h.2.1⟩

/-- C1 (amended): a set_save_location call outside IDLE does not execute
the change: it appends a retry of the same call to the pending queue and
returns False without raising; a call in IDLE transitions through
SAVING, resolves the session folder, replaces the current session while
demoting the previous one to last used, returns the status to IDLE and
returns True — but it does not drain the pending queue: the queue is
left exactly as it was (draining happens only in the stop_recording
success path and the move and prepend wrappers). -/
theorem C1_set_save_location_no_drain (popUpYes : Bool) (today : String)
    (st : CState) (root : Path) (vid : String) (hr : root ∈ st.fs) :
    (st.statusCode ≠ OBSStatus.IDLE →
      OBSController.set_save_location popUpYes today st (some root) vid =
        ({ st with queued_operations := st.queued_operations ++ [(some root, vid)] },
         PyResult.ret false)) ∧
    (st.statusCode = OBSStatus.IDLE →
      (∃ sess fs',
        OBSController.set_save_location popUpYes today st (some root) vid =
          ({ st with
             statusCode := OBSStatus.IDLE,
             fs := fs',
             fm := { st.fm with
               last_used_root_folder := some root,
               last_vid_name := some vid,
               last_used_folder := st.fm.current_using_folder,
               current_using_folder := some sess,
               execLog := st.fm.execLog ++ [(root, vid, sess)] } },
           PyResult.ret true)) ∧
      (OBSController.set_save_location popUpYes today st (some root) vid).1.queued_operations
        = st.queued_operations) := by
  constructor
  · intro h
    simp [OBSController.set_save_location, h]
  · intro h
    have e1 : OBSController.set_save_location popUpYes today st (some root) vid =
        ({ st with
           statusCode := OBSStatus.IDLE,
           fs := makedirs (makedirs st.fs (root ++ [Comp.name today]))
             (FM.session_folder_of st.fs root today vid),
           fm := { st.fm with
             last_used_root_folder := some root,
             last_vid_name := some vid,
             last_used_folder := st.fm.current_using_folder,
             current_using_folder := some (FM.session_folder_of st.fs root today vid),
             execLog := st.fm.execLog ++
               [(root, vid, FM.session_folder_of st.fs root today vid)] } },
         PyResult.ret true) := by
      simp [OBSController.set_save_location, h,
        FM.set_save_location_of_mem popUpYes today st.fs st.fm root vid hr]
    exact ⟨⟨FM.session_folder_of st.fs root today vid, _, e1⟩, by rw [e1]⟩

/-- Witness for C1 at a concrete state in each branch: a recording state
queues the call and returns False; an idle state with a pending entry
executes the call and returns True. -/
theorem C1_set_save_location_no_drain_witness :
    (OBSController.set_save_location true "2026-02-03"
      { statusCode := OBSStatus.RECORDING_STARTED, ws := true,
        queued_operations := [], last_upload_health := (true, "Good"),
        fm := { buffer_folder := [Comp.name "B"], last_vid_name := none,
                current_using_folder := none, last_used_root_folder := none,
                last_used_folder := none, sessions_started := false,
                execLog := [] },
        fs := {[Comp.name "R"]} } (some [Comp.name "R"]) "take" =
      ({ statusCode := OBSStatus.RECORDING_STARTED, ws := true,
          queued_operations := [(some [Comp.name "R"], "take")],
          last_upload_health := (true, "Good"),
          fm := { buffer_folder := [Comp.name "B"], last_vid_name := none,
                  current_using_folder := none, last_used_root_folder := none,
                  last_used_folder := none, sessions_started := false,
                  execLog := [] },
          fs := {[Comp.name "R"]} }, PyResult.ret false)) ∧
    (OBSController.set_save_location true "2026-02-03"
      { statusCode := OBSStatus.IDLE, ws := true,
        queued_operations := [(some [Comp.name "R"], "pending")],
        last_upload_health := (true, "Good"),
        fm := { buffer_folder := [Comp.name "B"], last_vid_name := none,
                current_using_folder := none, last_used_root_folder := none,
                last_used_folder := none, sessions_started := false,
                execLog := [] },
        fs := {[Comp.name "R"]} } (some [Comp.name "R"]) "take").1.queued_operations =
      [(some [Comp.name "R"], "pending")] := by
  constructor
  · have h := (C1_set_save_location_no_drain true "2026-02-03"
      { statusCode := OBSStatus.RECORDING_STARTED, ws := true,
        queued_operations := [], last_upload_health := (true, "Good"),
        fm := { buffer_folder := [Comp.name "B"], last_vid_name := none,
                current_using_folder := none, last_used_root_folder := none,
                last_used_folder := none, sessions_started := false,
                execLog := [] },
        fs := {[Comp.name "R"]} } [Comp.name "R"] "take" (by decide)).1
      (by decide)
    simpa using h
  · have h := (C1_set_save_location_no_drain true "2026-02-03"
      { statusCode := OBSStatus.IDLE, ws := true,
        queued_operations := [(some [Comp.name "R"], "pending")],
        last_upload_health := (true, "Good"),
        fm := { buffer_folder := [Comp.name "B"], last_vid_name := none,
                current_using_folder := none, last_used_root_folder := none,
                last_used_folder := none, sessions_started := false,
                execLog := [] },
        fs := {[Comp.name "R"]} } [Comp.name "R"] "take" (by decide)).2 rfl
    exact h.2

/-- C1 counterexample: in IDLE with a nonempty pending queue, the call
executes the save-location change and returns True, yet afterwards the
pending queue still holds its entry: the claimed drain of the pending
queue does not happen. -/
theorem C1_counterexample :
    (OBSController.set_save_location true "2026-02-03"
      { statusCode := OBSStatus.IDLE, ws := true,
        queued_operations := [(some [Comp.name "R"], "pending")],
        last_upload_health := (true, "Good"),
        fm := { buffer_folder := [Comp.name "B"], last_vid_name := none,
                current_using_folder := none, last_used_root_folder := none,
                last_used_folder := none, sessions_started := false,
                execLog := [] },
        fs := {[Comp.name "R"]} } (some [Comp.name "R"]) "take").2 =
      PyResult.ret true ∧
    (OBSController.set_save_location true "2026-02-03"
      { statusCode := OBSStatus.IDLE, ws := true,
        queued_operations := [(some [Comp.name "R"], "pending")],
        last_upload_health := (true, "Good"),
        fm := { buffer_folder := [Comp.name "B"], last_vid_name := none,
                current_using_folder := none, last_used_root_folder := none,
                last_used_folder := none, sessions_started := false,
                execLog := [] },
        fs := {[Comp.name "R"]} } (some [Comp.name "R"]) "take").1.queued_operations =
      [(some [Comp.name "R"], "pending")] ∧
    [(some [Comp.name "R"], "pending")] ≠ ([] : List (Option Path × String)) := by
  refine ⟨?_, ?_, by decide⟩ <;>
    simp [OBSController.set_save_location,
      FM.set_save_location_of_mem true "2026-02-03"
        ({[Comp.name "R"]} : Finset Path)
        { buffer_folder := [Comp.name "B"], last_vid_name := none,
          current_using_folder := none, last_used_root_folder := none,
          last_used_folder := none, sessions_started := false, execLog := [] }
        [Comp.name "R"] "take" (by decide)]

/-- C2 (amended): a backend exception during an attempted transition is
caught at the call site, reported as a failure, and never escapes.  For
start_recording the state is left fully unchanged.  For stop_recording
the inner handler aborts the archival sequence and leaves the status
untouched, but the public wrapper then sets statusCode to IDLE
unconditionally, so the observable status after a failed stop is IDLE
rather than the unchanged RECORDING_STARTED; all other fields are
unchanged. -/
theorem C2_backend_exception_handling (backend : Backend) (popUpYes : Bool)
    (today : String) (st : CState) (e : String) (hws : st.ws = true) :
    (st.statusCode = OBSStatus.IDLE → backend.startExn = some e →
      OBSController.start_recording backend st =
        (st, Outcome.err ("[OBS ERROR] Failed to start recording: " ++ e))) ∧
    (st.statusCode = OBSStatus.RECORDING_STARTED → backend.stopExn = some e →
      OBSController.stop_recording backend popUpYes today st =
        ({ st with statusCode := OBSStatus.IDLE },
         Outcome.err ("[OBS ERROR] Failed to stop recording: " ++ e))) := by
  constructor
  · intro h1 h2
    simp [OBSController.start_recording, RecordingController.start_recording,
      h1, h2, hws]
  · intro h1 h2
    simp [OBSController.stop_recording, RecordingController.stop_recording,
      h1, h2, hws]

/-- Witness for C2 at concrete states: a failing backend start reports
the failure and changes nothing; a failing backend stop reports the
failure and only the forced IDLE status differs. -/
theorem C2_backend_exception_handling_witness :
    OBSController.start_recording ⟨some "boom", none⟩
      { statusCode := OBSStatus.IDLE, ws := true, queued_operations := [],
        last_upload_health := (true, "Good"),
        fm := { buffer_folder := [Comp.name "B"], last_vid_name := none,
                current_using_folder := none, last_used_root_folder := none,
                last_used_folder := none, sessions_started := false,
                execLog := [] },
        fs := ∅ } =
      ({ statusCode := OBSStatus.IDLE, ws := true, queued_operations := [],
         last_upload_health := (true, "Good"),
         fm := { buffer_folder := [Comp.name "B"], last_vid_name := none,
                 current_using_folder := none, last_used_root_folder := none,
                 last_used_folder := none, sessions_started := false,
                 execLog := [] },
         fs := ∅ }, Outcome.err "[OBS ERROR] Failed to start recording: boom") ∧
    OBSController.stop_recording ⟨none, some "socket closed"⟩ true "2026-02-03"
      { statusCode := OBSStatus.RECORDING_STARTED, ws := true,
        queued_operations := [], last_upload_health := (true, "Good"),
        fm := { buffer_folder := [Comp.name "B"], last_vid_name := none,
                current_using_folder := none, last_used_root_folder := none,
                last_used_folder := none, sessions_started := false,
                execLog := [] },
        fs := ∅ } =
      ({ statusCode := OBSStatus.IDLE, ws := true, queued_operations := [],
         last_upload_health := (true, "Good"),
         fm := { buffer_folder := [Comp.name "B"], last_vid_name := none,
                 current_using_folder := none, last_used_root_folder := none,
                 last_used_folder := none, sessions_started := false,
                 execLog := [] },
         fs := ∅ }, Outcome.err "[OBS ERROR] Failed to stop recording: socket closed") := by
  constructor
  · exact (C2_backend_exception_handling ⟨some "boom", none⟩ true "2026-02-03"
      { statusCode := OBSStatus.IDLE, ws := true, queued_operations := [],
        last_upload_health := (true, "Good"),
        fm := { buffer_folder := [Comp.name "B"], last_vid_name := none,
                current_using_folder := none, last_used_root_folder := none,
                last_used_folder := none, sessions_started := false,
                execLog := [] },
        fs := ∅ } "boom" rfl).1 rfl rfl
  · exact (C2_backend_exception_handling ⟨none, some "socket closed"⟩ true
      "2026-02-03"
      { statusCode := OBSStatus.RECORDING_STARTED, ws := true,
        queued_operations := [], last_upload_health := (true, "Good"),
        fm := { buffer_folder := [Comp.name "B"], last_vid_name := none,
                current_using_folder := none, last_used_root_folder := none,
                last_used_folder := none, sessions_started := false,
                execLog := [] },
        fs := ∅ } "socket closed" rfl).2 rfl rfl

/-- C2 counterexample: when the backend stop call raises, the recorder
status is not left unchanged: stop_recording moves it from
RECORDING_STARTED to IDLE. -/
theorem C2_counterexample :
    (OBSController.stop_recording ⟨none, some "socket closed"⟩ true "2026-02-03"
      { statusCode := OBSStatus.RECORDING_STARTED, ws := true,
        queued_operations := [], last_upload_health := (true, "Good"),
        fm := { buffer_folder := [Comp.name "B"], last_vid_name := none,
                current_using_folder := none, last_used_root_folder := none,
                last_used_folder := none, sessions_started := false,
                execLog := [] },
        fs := ∅ }).1.statusCode = OBSStatus.IDLE ∧
    OBSStatus.IDLE ≠ OBSStatus.RECORDING_STARTED := by
  exact ⟨rfl, by decide⟩

/-- C3: a set_save_location request issued while the status is
RECORDING_STARTED is not executed at that moment: the file manager state
is untouched, the request is queued, and the call returns False.  After
the subsequent stop_recording completes its archival sequence and the
status has returned to IDLE, the request is executed exactly once,
automatically: the drained state shows exactly one new execution-log
entry for the queued arguments, an empty queue, and the resolved session
folder installed as current. -/
theorem C3_queued_until_stop (backend : Backend) (popUpYes : Bool)
    (today : String) (st : CState) (root : Path) (vid : String)
    (h1 : st.statusCode = OBSStatus.RECORDING_STARTED) (h2 : st.ws = true)
    (h3 : st.queued_operations = []) (h4 : root ∈ st.fs)
    (h5 : backend.stopExn = none) :
    (OBSController.set_save_location popUpYes today st (some root) vid).2 =
      PyResult.ret false ∧
    (OBSController.set_save_location popUpYes today st (some root) vid).1.fm =
      st.fm ∧
    (OBSController.set_save_location popUpYes today st (some root) vid).1.queued_operations =
      [(some root, vid)] ∧
    ∃ sess,
      (OBSController.stop_recording backend popUpYes today
        (OBSController.set_save_location popUpYes today st (some root) vid).1).2 =
        Outcome.ok ∧
      (OBSController.stop_recording backend popUpYes today
        (OBSController.set_save_location popUpYes today st (some root) vid).1).1.statusCode =
        OBSStatus.IDLE ∧
      (OBSController.stop_recording backend popUpYes today
        (OBSController.set_save_location popUpYes today st (some root) vid).1).1.queued_operations =
        [] ∧
      (OBSController.stop_recording backend popUpYes today
        (OBSController.set_save_location popUpYes today st (some root) vid).1).1.fm.execLog =
        st.fm.execLog ++ [(root, vid, sess)] ∧
      (OBSController.stop_recording backend popUpYes today
        (OBSController.set_save_location popUpYes today st (some root) vid).1).1.fm.current_using_folder =
        some sess := by
  have hne : st.statusCode ≠ OBSStatus.IDLE := by
    rw [h1]
    decide
  have e1 : OBSController.set_save_location popUpYes today st (some root) vid =
      ({ st with queued_operations := [(some root, vid)] }, PyResult.ret false) := by
    simp [OBSController.set_save_location, hne, h3]
  refine ⟨by rw [e1], by rw [e1], by rw [e1],
    FM.session_folder_of st.fs root today vid, ?_, ?_, ?_, ?_, ?_⟩ <;>
    · rw [e1]
      simp [OBSController.stop_recording, RecordingController.stop_recording,
        OBSController.pop_all_queued_operations, OBSController.set_save_location,
        FM.prepend_vid_name_state, h1, h2, h4, h5,
        FM.set_save_location_of_mem,
        FM.move_recorded_files_state_execLog,
        FM.move_recorded_files_state_current]

/-- Witness for C3 at a concrete recording state: the request is queued
with nothing executed, and the following stop drains it into exactly one
execution. -/
theorem C3_queued_until_stop_witness :
    (OBSController.set_save_location true "2026-02-03"
      { statusCode := OBSStatus.RECORDING_STARTED, ws := true,
        queued_operations := [], last_upload_health := (true, "Good"),
        fm := { buffer_folder := [Comp.name "B"], last_vid_name := none,
                current_using_folder := none, last_used_root_folder := none,
                last_used_folder := none, sessions_started := false,
                execLog := [] },
        fs := {[Comp.name "R"]} } (some [Comp.name "R"]) "glossA").2 =
      PyResult.ret false ∧
    ∃ sess,
      (OBSController.stop_recording ⟨none, none⟩ true "2026-02-03"
        (OBSController.set_save_location true "2026-02-03"
          { statusCode := OBSStatus.RECORDING_STARTED, ws := true,
            queued_operations := [], last_upload_health := (true, "Good"),
            fm := { buffer_folder := [Comp.name "B"], last_vid_name := none,
                    current_using_folder := none, last_used_root_folder := none,
                    last_used_folder := none, sessions_started := false,
                    execLog := [] },
            fs := {[Comp.name "R"]} } (some [Comp.name "R"]) "glossA").1).1.queued_operations =
        [] ∧
      (OBSController.stop_recording ⟨none, none⟩ true "2026-02-03"
        (OBSController.set_save_location true "2026-02-03"
          { statusCode := OBSStatus.RECORDING_STARTED, ws := true,
            queued_operations := [], last_upload_health := (true, "Good"),
            fm := { buffer_folder := [Comp.name "B"], last_vid_name := none,
                    current_using_folder := none, last_used_root_folder := none,
                    last_used_folder := none, sessions_started := false,
                    execLog := [] },
            fs := {[Comp.name "R"]} } (some [Comp.name "R"]) "glossA").1).1.fm.execLog =
        [([Comp.name "R"], "glossA", sess)] := by
  have h := C3_queued_until_stop ⟨none, none⟩ true "2026-02-03"
    { statusCode := OBSStatus.RECORDING_STARTED, ws := true,
      queued_operations := [], last_upload_health := (true, "Good"),
      fm := { buffer_folder := [Comp.name "B"], last_vid_name := none,
              current_using_folder := none, last_used_root_folder := none,
              last_used_folder := none, sessions_started := false,
              execLog := [] },
      fs := {[Comp.name "R"]} } [Comp.name "R"] "glossA" rfl rfl rfl (by decide) rfl
  obtain ⟨hret, _, _, sess, _, _, hqueue, hlog, _⟩ := h
  exact ⟨hret, sess, hqueue, by simpa using hlog⟩

/-- C4: with the same root folder and label on the same day, each
save-location resolution builds root, then the date folder, then the
label folder, selects the lowest positive integer whose numbered
subfolder does not yet exist, creates that folder, and installs it as
the current session folder; the next call returns a strictly larger
numeric suffix, and the returned folder held nothing before its
creation (on a prefix-closed filesystem). -/
theorem C4_incremental_session_folders (popUpYes : Bool) (today : String)
    (fs : Finset Path) (st : FMState) (root : Path) (vid : String)
    (hr : root ∈ fs) (hpc : PrefixClosed fs) :
    ∃ fs₁ st₁ i₁ fs₂ st₂ i₂,
      FM.set_save_location popUpYes today fs st (some root) vid =
        Except.ok (fs₁, st₁) ∧
      st₁.current_using_folder =
        some (root ++ [Comp.name today] ++ [Comp.name vid] ++ [Comp.num i₁]) ∧
      1 ≤ i₁ ∧
      root ++ [Comp.name today] ++ [Comp.name vid] ++ [Comp.num i₁] ∉
        makedirs fs (root ++ [Comp.name today]) ∧
      (∀ j, 1 ≤ j → j < i₁ →
        root ++ [Comp.name today] ++ [Comp.name vid] ++ [Comp.num j] ∈
          makedirs fs (root ++ [Comp.name today])) ∧
      root ++ [Comp.name today] ++ [Comp.name vid] ++ [Comp.num i₁] ∈ fs₁ ∧
      (∀ c, (root ++ [Comp.name today] ++ [Comp.name vid] ++ [Comp.num i₁]) ++ [c] ∉ fs₁) ∧
      FM.set_save_location popUpYes today fs₁ st₁ (some root) vid =
        Except.ok (fs₂, st₂) ∧
      st₂.current_using_folder =
        some (root ++ [Comp.name today] ++ [Comp.name vid] ++ [Comp.num i₂]) ∧
      i₁ < i₂ := by
  obtain ⟨h11, h12, h13⟩ := get_incremental_folder_spec
    (makedirs fs (root ++ [Comp.name today]))
    (root ++ [Comp.name today] ++ [Comp.name vid])
  have e1 := FM.set_save_location_of_mem popUpYes today fs st root vid hr
  have hrootmem1 : root ∈ makedirs (makedirs fs (root ++ [Comp.name today]))
      (FM.session_folder_of fs root today vid) :=
    subset_makedirs _ _ (subset_makedirs _ _ hr)
  have hcreated : FM.session_folder_of fs root today vid ∈
      makedirs (makedirs fs (root ++ [Comp.name today]))
        (FM.session_folder_of fs root today vid) :=
    mem_makedirs_self _ (by simp [FM.session_folder_of])
  have hchild : ∀ c, (FM.session_folder_of fs root today vid) ++ [c] ∉
      makedirs (makedirs fs (root ++ [Comp.name today]))
        (FM.session_folder_of fs root today vid) := by
    intro c
    exact child_not_mem_makedirs_self
      (child_not_mem (prefixClosed_makedirs hpc (root ++ [Comp.name today]))
        (by simp [FM.session_folder_of]) h12 c)
  have hsub2 : makedirs fs (root ++ [Comp.name today]) ⊆
      makedirs (makedirs (makedirs fs (root ++ [Comp.name today]))
        (FM.session_folder_of fs root today vid)) (root ++ [Comp.name today]) := by
    intro x hx
    exact subset_makedirs _ _ (subset_makedirs _ _ hx)
  have hmem2 : (root ++ [Comp.name today] ++ [Comp.name vid]) ++
      [Comp.num (get_incremental_folder (makedirs fs (root ++ [Comp.name today]))
        (root ++ [Comp.name today] ++ [Comp.name vid]))] ∈
      makedirs (makedirs (makedirs fs (root ++ [Comp.name today]))
        (FM.session_folder_of fs root today vid)) (root ++ [Comp.name today]) :=
    subset_makedirs _ _ hcreated
  have hlt := get_incremental_folder_lt hsub2 hmem2
  refine ⟨_, _,
    get_incremental_folder (makedirs fs (root ++ [Comp.name today]))
      (root ++ [Comp.name today] ++ [Comp.name vid]), _, _,
    get_incremental_folder
      (makedirs (makedirs (makedirs fs (root ++ [Comp.name today]))
        (FM.session_folder_of fs root today vid)) (root ++ [Comp.name today]))
      (root ++ [Comp.name today] ++ [Comp.name vid]),
    e1, rfl, h11, h12, h13, hcreated, hchild,
    FM.set_save_location_of_mem popUpYes today
      (makedirs (makedirs fs (root ++ [Comp.name today]))
        (FM.session_folder_of fs root today vid)) _ root vid hrootmem1,
    rfl, hlt⟩

/-- Witness for C4 at a concrete one-directory filesystem: two
consecutive resolutions with the same root and label succeed, pick
least free indices, create fresh empty folders, and increase strictly. -/
theorem C4_incremental_session_folders_witness :
    ∃ fs₁ st₁ i₁ fs₂ st₂ i₂,
      FM.set_save_location true "2026-02-03" {[Comp.name "R"]}
        { buffer_folder := [Comp.name "B"], last_vid_name := none,
          current_using_folder := none, last_used_root_folder := none,
          last_used_folder := none, sessions_started := false, execLog := [] }
        (some [Comp.name "R"]) "Recording" = Except.ok (fs₁, st₁) ∧
      st₁.current_using_folder =
        some ([Comp.name "R"] ++ [Comp.name "2026-02-03"] ++
          [Comp.name "Recording"] ++ [Comp.num i₁]) ∧
      1 ≤ i₁ ∧
      [Comp.name "R"] ++ [Comp.name "2026-02-03"] ++ [Comp.name "Recording"] ++
        [Comp.num i₁] ∉
        makedirs {[Comp.name "R"]} ([Comp.name "R"] ++ [Comp.name "2026-02-03"]) ∧
      (∀ j, 1 ≤ j → j < i₁ →
        [Comp.name "R"] ++ [Comp.name "2026-02-03"] ++ [Comp.name "Recording"] ++
          [Comp.num j] ∈
          makedirs {[Comp.name "R"]} ([Comp.name "R"] ++ [Comp.name "2026-02-03"])) ∧
      [Comp.name "R"] ++ [Comp.name "2026-02-03"] ++ [Comp.name "Recording"] ++
        [Comp.num i₁] ∈ fs₁ ∧
      (∀ c, ([Comp.name "R"] ++ [Comp.name "2026-02-03"] ++ [Comp.name "Recording"] ++
        [Comp.num i₁]) ++ [c] ∉ fs₁) ∧
      FM.set_save_location true "2026-02-03" fs₁ st₁
        (some [Comp.name "R"]) "Recording" = Except.ok (fs₂, st₂) ∧
      st₂.current_using_folder =
        some ([Comp.name "R"] ++ [Comp.name "2026-02-03"] ++
          [Comp.name "Recording"] ++ [Comp.num i₂]) ∧
      i₁ < i₂ := by
  refine C4_incremental_session_folders true "2026-02-03" {[Comp.name "R"]}
    { buffer_folder := [Comp.name "B"], last_vid_name := none,
      current_using_folder := none, last_used_root_folder := none,
      last_used_folder := none, sessions_started := false, execLog := [] }
    [Comp.name "R"] "Recording" (by decide) ?_
  intro q c hm
  rw [Finset.mem_singleton] at hm
  cases q with
  | nil => exact Or.inl rfl
  | cons a t => simp at hm

end OBSRecorder
